import Mathlib

/-!
Verification of the IMAGINE backend (FastAPI + document store).

Shallow embedding of `src/main.py` and `src/schemas.py`.  JSON/BSON values
are modelled by `Value`; a document is an association list of fields; the
store is the insertion-ordered list of (collection name, document) pairs.
The `database` module (store adapter) is not part of the repository sources,
so its two operations are modelled from the specification (§4.1).
-/

/-- A JSON/BSON value as stored in a document.  JSON numbers are a single
numeric type (modelled by `ℚ`); datetimes are a distinct store-native type
(modelled by a `Nat` timestamp).  The only array-valued fields in this
system are lists of strings (`tags`, `features`), so arrays are modelled as
string lists. -/
inductive Value where
  | str : String → Value
  | num : ℚ → Value
  | strlist : List String → Value
  | time : Nat → Value
  | null : Value
deriving DecidableEq, Repr

/-- A document: an association list from field names to values. -/
abbrev Doc := List (String × Value)

/-- First-occurrence field lookup in a document (Python dict access). -/
def Doc.lookup (d : Doc) (k : String) : Option Value :=
  match d with
  | [] => none
  | (k', v) :: rest => if k' = k then some v else Doc.lookup rest k

/-- The field names of a document. -/
def Doc.keys (d : Doc) : List String := d.map Prod.fst

/-- `{k: v for k, v in d.items() if k in fields}`: keep only declared fields. -/
def Doc.restrict (d : Doc) (fields : List String) : Doc :=
  d.filter (fun kv => kv.1 ∈ fields)

/-- The store: insertion-ordered (collection name, document) pairs. -/
abbrev Store := List (String × Doc)

/-- A document matches a Mongo-style exact-match filter iff each filter
field is present with exactly the filter's value (empty filter = all). -/
def matchesFilter (filt : Doc) (d : Doc) : Bool :=
  filt.all (fun kv => decide (d.lookup kv.1 = some kv.2))

/-- Modelled from the spec: the `database` module is absent from the sources.
§4.1: `get_documents(collection_name, filter, limit)` returns up to `limit`
documents matching an exact-match filter (empty filter = all), in store
order, and an empty sequence if the store is unavailable (`db is None`). -/
def get_documents (db : Option Store) (c : String) (filt : Doc) (limit : Nat) :
    List Doc :=
  match db with
  | none => []
  | some st =>
      (((st.filter (fun p => p.1 == c && matchesFilter filt p.2)).map Prod.snd).take limit)

/-- Modelled from the spec: §4.1 `create_document(collection_name, document)`
serializes the document, inserts it into the named collection, and returns
the generated identifier as a string. -/
def create_document (st : Store) (c : String) (d : Doc) : Store × String :=
  (st ++ [(c, d)], toString st.length)

/-- Modelled from the spec: `db["c"].count_documents({})` counts the
documents of collection `c`. -/
def count_documents (st : Store) (c : String) : Nat :=
  (st.filter (fun p => p.1 == c)).length

/-! ## Schema layer (`src/schemas.py`)

Each Pydantic model becomes a structure; `fromDoc` is construction with
validation (`none` = `ValidationError`), `toDoc` is serialization back to
JSON.  `model_fields` lists the declared fields. -/

/-- Parse a JSON value as a Python `str`. -/
def Value.asStr : Value → Option String
  | .str s => some s
  | _ => none

/-- Parse a JSON value as a Python `float` (any JSON number). -/
def Value.asNum : Value → Option ℚ
  | .num q => some q
  | _ => none

/-- Parse a JSON value as a `List[str]`. -/
def Value.asStrList : Value → Option (List String)
  | .strlist vs => some vs
  | _ => none

/-- Parse an `Optional[X]` field: missing or `null` gives `None`. -/
def parseOpt (parse : Value → Option α) : Option Value → Option (Option α)
  | none => some none
  | some .null => some none
  | some v => (parse v).map some

/-- Parse a field with a default: missing gives the default. -/
def parseDefault (parse : Value → Option α) (dflt : α) :
    Option Value → Option α
  | none => some dflt
  | some v => parse v

/-- Parse a required field: missing is a `ValidationError`. -/
def parseReq (parse : Value → Option α) : Option Value → Option α
  | none => none
  | some v => parse v

/-- `[f(d) for d in docs]` where constructing `f(d)` can raise: the whole
comprehension fails (`none`) as soon as one element fails. -/
def mapOrErr (f : α → Option β) : List α → Option (List β)
  | [] => some []
  | a :: as =>
      match f a, mapOrErr f as with
      | some b, some bs => some (b :: bs)
      | _, _ => none

/-- `Mode` (schemas.py): key, title, description, color, all required strings. -/
structure Mode where
  key : String
  title : String
  description : String
  color : String
deriving DecidableEq, Repr

def Mode.model_fields : List String := ["key", "title", "description", "color"]

def Mode.fromDoc (d : Doc) : Option Mode :=
  match parseReq Value.asStr (d.lookup "key"),
        parseReq Value.asStr (d.lookup "title"),
        parseReq Value.asStr (d.lookup "description"),
        parseReq Value.asStr (d.lookup "color") with
  | some key, some title, some description, some color =>
      some ⟨key, title, description, color⟩
  | _, _, _, _ => none

def Mode.toDoc (m : Mode) : Doc :=
  [("key", .str m.key), ("title", .str m.title),
   ("description", .str m.description), ("color", .str m.color)]

/-- `Question` (schemas.py): mode, text required; tags optional; locale
defaults to "en-KE". -/
structure Question where
  mode : String
  text : String
  tags : Option (List String)
  locale : String
deriving DecidableEq, Repr

def Question.model_fields : List String := ["mode", "text", "tags", "locale"]

def Question.fromDoc (d : Doc) : Option Question :=
  match parseReq Value.asStr (d.lookup "mode"),
        parseReq Value.asStr (d.lookup "text"),
        parseOpt Value.asStrList (d.lookup "tags"),
        parseDefault Value.asStr "en-KE" (d.lookup "locale") with
  | some mode, some text, some tags, some locale => some ⟨mode, text, tags, locale⟩
  | _, _, _, _ => none

def serializeOpt (ser : α → Value) : Option α → Value
  | none => .null
  | some a => ser a

def Question.toDoc (q : Question) : Doc :=
  [("mode", .str q.mode), ("text", .str q.text),
   ("tags", serializeOpt Value.strlist q.tags),
   ("locale", .str q.locale)]

/-- `BlogPost` (schemas.py): title/slug/excerpt/content required; image
optional; author defaults to "IMAGINE Team"; published_at defaults to the
construction timestamp (`default_factory=datetime.utcnow`), passed here as
`now`. -/
structure BlogPost where
  title : String
  slug : String
  excerpt : String
  content : String
  image : Option String
  author : String
  published_at : Nat
deriving DecidableEq, Repr

def BlogPost.model_fields : List String :=
  ["title", "slug", "excerpt", "content", "image", "author", "published_at"]

def Value.asTime : Value → Option Nat
  | .time t => some t
  | _ => none

def BlogPost.fromDoc (now : Nat) (d : Doc) : Option BlogPost :=
  match parseReq Value.asStr (d.lookup "title"),
        parseReq Value.asStr (d.lookup "slug"),
        parseReq Value.asStr (d.lookup "excerpt"),
        parseReq Value.asStr (d.lookup "content"),
        parseOpt Value.asStr (d.lookup "image"),
        parseDefault Value.asStr "IMAGINE Team" (d.lookup "author"),
        parseDefault Value.asTime now (d.lookup "published_at") with
  | some title, some slug, some excerpt, some content, some image, some author,
    some published_at =>
      some ⟨title, slug, excerpt, content, image, author, published_at⟩
  | _, _, _, _, _, _, _ => none

def BlogPost.toDoc (b : BlogPost) : Doc :=
  [("title", .str b.title), ("slug", .str b.slug), ("excerpt", .str b.excerpt),
   ("content", .str b.content), ("image", serializeOpt Value.str b.image),
   ("author", .str b.author), ("published_at", .time b.published_at)]

/-- `PricingPlan` (schemas.py): name, price_month, price_year, features. -/
structure PricingPlan where
  name : String
  price_month : ℚ
  price_year : ℚ
  features : List String
deriving DecidableEq, Repr

def PricingPlan.model_fields : List String :=
  ["name", "price_month", "price_year", "features"]

def PricingPlan.fromDoc (d : Doc) : Option PricingPlan :=
  match parseReq Value.asStr (d.lookup "name"),
        parseReq Value.asNum (d.lookup "price_month"),
        parseReq Value.asNum (d.lookup "price_year"),
        parseReq Value.asStrList (d.lookup "features") with
  | some name, some price_month, some price_year, some features =>
      some ⟨name, price_month, price_year, features⟩
  | _, _, _, _ => none

def PricingPlan.toDoc (p : PricingPlan) : Doc :=
  [("name", .str p.name), ("price_month", .num p.price_month),
   ("price_year", .num p.price_year),
   ("features", .strlist p.features)]

/-! ## HTTP API layer (`src/main.py`)

Handlers embed as explicit functions of the store state (`Option Store`:
`none` = `db is None`).  Read-only handlers that re-query the store on every
call are pure functions of the state; the two handlers that write return the
new state.  `Option` on a result is a handler-level error (`HTTPException`
or a propagated `ValidationError`). -/

/-- The four default modes (main.py, `seed_content` and `get_modes`: the two
literal lists are identical). -/
def defaultModes : List Mode :=
  [⟨"child", "Child", "Playful prompts for kids to imagine better worlds.", "#FDBA74"⟩,
   ⟨"arts", "Arts & Culture", "Explore culture, identity and expression.", "#FDE68A"⟩,
   ⟨"creative", "Creative", "Open-ended ideation and storytelling.", "#86EFAC"⟩,
   ⟨"technology", "Technology", "Invent systems and tools for the future.", "#93C5FD"⟩]

/-- The three default pricing plans (main.py, `seed_content` and
`get_pricing`: the two literal lists are identical). -/
def defaultPlans : List PricingPlan :=
  [⟨"Starter", 0, 0, ["Community play", "Basic prompts", "Public chat"]⟩,
   ⟨"Creator", 4.99, 49.0, ["All modes", "Saved worlds", "Custom decks"]⟩,
   ⟨"Team", 14.99, 149.0, ["Facilitator tools", "Scoreboards", "Workshop mode"]⟩]

/-- `POST /seed` (main.py `seed_content`): 500 (`none`) if `db is None`;
otherwise seed each empty reference collection independently. -/
def seed_content (db : Option Store) : Option Store :=
  match db with
  | none => none
  | some st =>
      let st1 :=
        if count_documents st "mode" = 0 then
          defaultModes.foldl (fun s m => (create_document s "mode" (Mode.toDoc m)).1) st
        else st
      let st2 :=
        if count_documents st1 "pricingplan" = 0 then
          defaultPlans.foldl
            (fun s p => (create_document s "pricingplan" (PricingPlan.toDoc p)).1) st1
        else st1
      some st2

/-- `filt = {"mode": mode} if mode else {}`: the filter is non-empty exactly
when `mode` is supplied and non-empty (Python truthiness of `str`). -/
def modeFilter (mode : Option String) : Doc :=
  match mode with
  | some m => if m = "" then [] else [("mode", .str m)]
  | none => []

/-- `GET /questions` (main.py `list_questions`): query with the mode filter,
then rebuild each document as a `Question` keeping only declared fields. -/
def list_questions (db : Option Store) (mode : Option String) (limit : Nat) :
    Option (List Question) :=
  mapOrErr (fun d => Question.fromDoc (d.restrict Question.model_fields))
    (get_documents db "question" (modeFilter mode) limit)

/-- `GET /answers` (main.py `list_answers`): same query shape, but the raw
documents are returned unfiltered. -/
def list_answers (db : Option Store) (mode : Option String) (limit : Nat) :
    List Doc :=
  get_documents db "answer" (modeFilter mode) limit

/-- `POST /questions` request body (main.py `NewQuestion`). -/
structure NewQuestion where
  mode : String
  text : String
  tags : Option (List String)
  locale : String
deriving DecidableEq, Repr

/-- `payload.dict()`. -/
def NewQuestion.toDoc (p : NewQuestion) : Doc :=
  [("mode", .str p.mode), ("text", .str p.text),
   ("tags", serializeOpt Value.strlist p.tags), ("locale", .str p.locale)]

/-- The fixed list checked by `create_question`. -/
def validModes : List String := ["child", "arts", "creative", "technology"]

/-- `POST /questions` (main.py `create_question`): result is
(HTTP status, store state after the request, created id).  An invalid mode
raises HTTP 400 before any store access; with no store configured the write
raises `StorageUnavailable`, a generic 500. -/
def create_question (db : Option Store) (p : NewQuestion) :
    Nat × Option Store × Option String :=
  if p.mode ∉ validModes then (400, db, none)
  else
    match db with
    | none => (500, none, none)
    | some st =>
        let r := create_document st "question" p.toDoc
        (200, some r.1, some r.2)

/-- `GET /modes` (main.py `get_modes`): read up to 10 mode documents; if none,
return the defaults without writing.  The store state is returned unchanged:
the handler performs no store operation other than `get_documents`. -/
def get_modes (db : Option Store) : Option Store × Option (List Mode) :=
  let docs := get_documents db "mode" [] 10
  if docs.isEmpty then (db, some defaultModes)
  else (db, mapOrErr (fun d => Mode.fromDoc (d.restrict Mode.model_fields)) docs)

/-- `GET /pricing` (main.py `get_pricing`): same synthesize-without-write
shape as `get_modes`. -/
def get_pricing (db : Option Store) : Option Store × Option (List PricingPlan) :=
  let docs := get_documents db "pricingplan" [] 10
  if docs.isEmpty then (db, some defaultPlans)
  else (db, mapOrErr (fun d => PricingPlan.fromDoc (d.restrict PricingPlan.model_fields)) docs)

/-- `GET /blog` (main.py `list_blog`): up to 20 posts, schema-filtered.
`now` is the request time used by pydantic's `published_at` default. -/
def list_blog (db : Option Store) (now : Nat) : Option (List BlogPost) :=
  mapOrErr (fun d => BlogPost.fromDoc now (d.restrict BlogPost.model_fields))
    (get_documents db "blogpost" [] 20)

/-- `POST /blog` (main.py `create_blog`): persist the validated post. -/
def create_blog (st : Store) (post : BlogPost) : Store × String :=
  create_document st "blogpost" post.toDoc

/-- `GET /chat` (main.py `get_chat`): raw documents, no schema filtering. -/
def get_chat (db : Option Store) (limit : Nat) : List Doc :=
  get_documents db "chatmessage" [] limit

/-! ## `GET /test` (main.py `test_database`)

The store-facing behaviour depends on three observable situations: no
connection (`db is None`), a connected store whose collection listing
succeeds, and a connected store whose collection listing raises.  The `name`
component models `db.name if hasattr(db, 'name')`. -/

inductive DbState where
  | noDb : DbState
  | ok : Option String → List String → DbState
  | listErr : Option String → String → DbState
deriving DecidableEq, Repr

structure TestResponse where
  backend : String
  database : String
  database_url : String
  database_name : String
  connection_status : String
  collections : List String
deriving DecidableEq, Repr

/-- `GET /test`: total by construction — every store situation, including a
raised listing error, yields a plain response; the two env flags say whether
`DATABASE_URL` / `DATABASE_NAME` are set. -/
def test_database (s : DbState) (urlSet nameSet : Bool) : TestResponse :=
  { backend := "✅ Running"
    database :=
      match s with
      | .noDb => "⚠️  Available but not initialized"
      | .ok _ _ => "✅ Connected & Working"
      | .listErr _ e => "⚠️  Connected but Error: " ++ e.take 50
    database_url := if urlSet then "✅ Set" else "❌ Not Set"
    database_name := if nameSet then "✅ Set" else "❌ Not Set"
    connection_status :=
      match s with
      | .noDb => "Not Connected"
      | .ok _ _ => "Connected"
      | .listErr _ _ => "Connected"
    collections :=
      match s with
      | .noDb => []
      | .ok _ cols => cols.take 10
      | .listErr _ _ => [] }

/-- A stored document carrying every declared field of every schema plus an
extra undeclared field (`internal_id`), for exercising the read paths. -/
def universalDoc : Doc :=
  [("key", .str "child"), ("title", .str "T"), ("description", .str "D"),
   ("color", .str "#FFF"), ("mode", .str "child"), ("text", .str "Why?"),
   ("tags", .strlist ["a"]), ("locale", .str "en-KE"), ("slug", .str "t"),
   ("excerpt", .str "E"), ("content", .str "C"), ("image", .null),
   ("author", .str "A"), ("published_at", .time 7),
   ("name", .str "Starter"), ("price_month", .num 0), ("price_year", .num 0),
   ("features", .strlist ["f"]), ("internal_id", .str "abc123")]

/-! ## Lemmas about the embedding -/

lemma mapOrErr_cons_eq_some {f : α → Option β} {a : α} {as : List α} {l : List β} :
    mapOrErr f (a :: as) = some l ↔
      ∃ b bs, f a = some b ∧ mapOrErr f as = some bs ∧ l = b :: bs := by
  constructor
  · intro h
    rcases ha : f a with _ | b <;> rcases has : mapOrErr f as with _ | bs <;>
      rw [mapOrErr, ha, has] at h <;> simp at h
    exact ⟨b, bs, rfl, rfl, h.symm⟩
  · rintro ⟨b, bs, hb, hbs, rfl⟩
    rw [mapOrErr, hb, hbs]

lemma mapOrErr_length {f : α → Option β} :
    ∀ {l : List α} {l' : List β}, mapOrErr f l = some l' → l'.length = l.length := by
  intro l
  induction l with
  | nil =>
      intro l' h
      rw [mapOrErr] at h
      simp at h
      simp [← h]
  | cons a as ih =>
      intro l' h
      rcases mapOrErr_cons_eq_some.1 h with ⟨b, bs, _, hbs, rfl⟩
      simp [ih hbs]

lemma mapOrErr_mem {f : α → Option β} :
    ∀ {l : List α} {l' : List β}, mapOrErr f l = some l' →
      ∀ b ∈ l', ∃ a ∈ l, f a = some b := by
  intro l
  induction l with
  | nil =>
      intro l' h
      rw [mapOrErr] at h
      simp at h
      subst h
      simp
  | cons a as ih =>
      intro l' h b hb
      rcases mapOrErr_cons_eq_some.1 h with ⟨b0, bs, hb0, hbs, rfl⟩
      rcases List.mem_cons.1 hb with rfl | hb
      · exact ⟨a, List.mem_cons_self _ _, hb0⟩
      · rcases ih hbs b hb with ⟨a0, ha0, hfa⟩
        exact ⟨a0, List.mem_cons_of_mem _ ha0, hfa⟩

lemma Doc.lookup_restrict {F : List String} {k : String} (hk : k ∈ F) :
    ∀ d : Doc, (d.restrict F).lookup k = d.lookup k := by
  intro d
  induction d with
  | nil => rfl
  | cons kv rest ih =>
      rcases kv with ⟨k', v⟩
      by_cases hk' : k' = k
      · subst hk'
        simp [Doc.restrict, List.filter_cons, hk, Doc.lookup]
      · by_cases hmem : k' ∈ F <;>
        · simp only [Doc.restrict, List.filter_cons] at ih ⊢
          simp [hmem, Doc.lookup, hk', ih]

lemma matchesFilter_of_mem_get_documents {db : Option Store} {c : String}
    {filt : Doc} {n : Nat} {d : Doc} (h : d ∈ get_documents db c filt n) :
    matchesFilter filt d = true := by
  rcases db with _ | st
  · simp [get_documents] at h
  · simp only [get_documents] at h
    have h2 := List.take_subset _ _ h
    rcases List.mem_map.1 h2 with ⟨p, hp, rfl⟩
    have hb := (List.mem_filter.1 hp).2
    simp only [Bool.and_eq_true] at hb
    exact hb.2

lemma length_get_documents_le (db : Option Store) (c : String) (filt : Doc)
    (n : Nat) : (get_documents db c filt n).length ≤ n := by
  rcases db with _ | st
  · simp [get_documents]
  · simp only [get_documents, List.length_take]
    exact min_le_left _ _

lemma matchesFilter_single {k : String} {v : Value} {d : Doc}
    (h : matchesFilter [(k, v)] d = true) : d.lookup k = some v := by
  simpa [matchesFilter] using h

lemma foldl_create_document (c : String) (f : α → Doc) :
    ∀ (l : List α) (st : Store),
      l.foldl (fun s a => (create_document s c (f a)).1) st
        = st ++ l.map (fun a => (c, f a)) := by
  intro l
  induction l with
  | nil => intro st; simp
  | cons a as ih =>
      intro st
      rw [List.foldl_cons, ih]
      simp [create_document]

lemma count_documents_append (st l : Store) (c : String) :
    count_documents (st ++ l) c = count_documents st c + count_documents l c := by
  simp [count_documents, List.filter_append]

lemma count_documents_map_self (c : String) (f : α → Doc) (l : List α) :
    count_documents (l.map (fun a => (c, f a))) c = l.length := by
  induction l with
  | nil => rfl
  | cons a as ih =>
      simp only [List.map_cons, count_documents, List.filter_cons] at ih ⊢
      simp [ih]

lemma count_documents_map_other {c c' : String} (h : (c == c') = false)
    (f : α → Doc) (l : List α) :
    count_documents (l.map (fun a => (c, f a))) c' = 0 := by
  induction l with
  | nil => rfl
  | cons a as ih =>
      simp only [List.map_cons, count_documents, List.filter_cons] at ih ⊢
      simp [h, ih]

lemma Value.asStr_eq {v : Value} {s : String} (h : Value.asStr v = some s) :
    v = Value.str s := by
  cases v <;> simp [Value.asStr] at h <;> simp [h]

lemma Value.asNum_eq {v : Value} {q : ℚ} (h : Value.asNum v = some q) :
    v = Value.num q := by
  cases v <;> simp [Value.asNum] at h <;> simp [h]

lemma Value.asStrList_eq {v : Value} {l : List String}
    (h : Value.asStrList v = some l) : v = Value.strlist l := by
  cases v <;> simp [Value.asStrList] at h <;> simp [h]

lemma Value.asTime_eq {v : Value} {t : Nat} (h : Value.asTime v = some t) :
    v = Value.time t := by
  cases v <;> simp [Value.asTime] at h <;> simp [h]

lemma serializeOpt_parseOpt {p : Value → Option α} {s : α → Value}
    (hps : ∀ v a, p v = some a → v = s a) :
    ∀ {v : Value} {t : Option α}, parseOpt p (some v) = some t →
      serializeOpt s t = v := by
  intro v t h
  cases v with
  | null =>
      simp [parseOpt] at h
      simp [← h, serializeOpt]
  | str a =>
      simp only [parseOpt, Option.map_eq_some'] at h
      rcases h with ⟨b, hb, rfl⟩
      simp [serializeOpt, hps _ _ hb]
  | num a =>
      simp only [parseOpt, Option.map_eq_some'] at h
      rcases h with ⟨b, hb, rfl⟩
      simp [serializeOpt, hps _ _ hb]
  | strlist a =>
      simp only [parseOpt, Option.map_eq_some'] at h
      rcases h with ⟨b, hb, rfl⟩
      simp [serializeOpt, hps _ _ hb]
  | time a =>
      simp only [parseOpt, Option.map_eq_some'] at h
      rcases h with ⟨b, hb, rfl⟩
      simp [serializeOpt, hps _ _ hb]

lemma parseReq_some {p : Value → Option α} {v : Value} {a : α} :
    parseReq p (some v) = some a ↔ p v = some a := Iff.rfl

lemma parseDefault_some {p : Value → Option α} {dflt : α} {v : Value} {a : α} :
    parseDefault p dflt (some v) = some a ↔ p v = some a := Iff.rfl

lemma question_fromDoc_fields {d : Doc} {q : Question}
    (h : Question.fromDoc d = some q) :
    parseReq Value.asStr (d.lookup "mode") = some q.mode ∧
    parseReq Value.asStr (d.lookup "text") = some q.text ∧
    parseOpt Value.asStrList (d.lookup "tags") = some q.tags ∧
    parseDefault Value.asStr "en-KE" (d.lookup "locale") = some q.locale := by
  unfold Question.fromDoc at h
  cases h1 : parseReq Value.asStr (d.lookup "mode") <;> rw [h1] at h <;>
  cases h2 : parseReq Value.asStr (d.lookup "text") <;> rw [h2] at h <;>
  cases h3 : parseOpt Value.asStrList (d.lookup "tags") <;> rw [h3] at h <;>
  cases h4 : parseDefault Value.asStr "en-KE" (d.lookup "locale") <;> rw [h4] at h <;>
    first
    | (injection h with h; rw [← h]; simp)
    | simp_all

lemma mode_fromDoc_fields {d : Doc} {m : Mode} (h : Mode.fromDoc d = some m) :
    parseReq Value.asStr (d.lookup "key") = some m.key ∧
    parseReq Value.asStr (d.lookup "title") = some m.title ∧
    parseReq Value.asStr (d.lookup "description") = some m.description ∧
    parseReq Value.asStr (d.lookup "color") = some m.color := by
  unfold Mode.fromDoc at h
  cases h1 : parseReq Value.asStr (d.lookup "key") <;> rw [h1] at h <;>
  cases h2 : parseReq Value.asStr (d.lookup "title") <;> rw [h2] at h <;>
  cases h3 : parseReq Value.asStr (d.lookup "description") <;> rw [h3] at h <;>
  cases h4 : parseReq Value.asStr (d.lookup "color") <;> rw [h4] at h <;>
    first
    | (injection h with h; rw [← h]; simp)
    | simp_all

lemma blogPost_fromDoc_fields {now : Nat} {d : Doc} {b : BlogPost}
    (h : BlogPost.fromDoc now d = some b) :
    parseReq Value.asStr (d.lookup "title") = some b.title ∧
    parseReq Value.asStr (d.lookup "slug") = some b.slug ∧
    parseReq Value.asStr (d.lookup "excerpt") = some b.excerpt ∧
    parseReq Value.asStr (d.lookup "content") = some b.content ∧
    parseOpt Value.asStr (d.lookup "image") = some b.image ∧
    parseDefault Value.asStr "IMAGINE Team" (d.lookup "author") = some b.author ∧
    parseDefault Value.asTime now (d.lookup "published_at") = some b.published_at := by
  unfold BlogPost.fromDoc at h
  cases h1 : parseReq Value.asStr (d.lookup "title") <;> rw [h1] at h <;>
  cases h2 : parseReq Value.asStr (d.lookup "slug") <;> rw [h2] at h <;>
  cases h3 : parseReq Value.asStr (d.lookup "excerpt") <;> rw [h3] at h <;>
  cases h4 : parseReq Value.asStr (d.lookup "content") <;> rw [h4] at h <;>
  cases h5 : parseOpt Value.asStr (d.lookup "image") <;> rw [h5] at h <;>
  cases h6 : parseDefault Value.asStr "IMAGINE Team" (d.lookup "author") <;> rw [h6] at h <;>
  cases h7 : parseDefault Value.asTime now (d.lookup "published_at") <;> rw [h7] at h <;>
    first
    | (injection h with h; rw [← h]; simp)
    | simp_all

lemma pricingPlan_fromDoc_fields {d : Doc} {p : PricingPlan}
    (h : PricingPlan.fromDoc d = some p) :
    parseReq Value.asStr (d.lookup "name") = some p.name ∧
    parseReq Value.asNum (d.lookup "price_month") = some p.price_month ∧
    parseReq Value.asNum (d.lookup "price_year") = some p.price_year ∧
    parseReq Value.asStrList (d.lookup "features") = some p.features := by
  unfold PricingPlan.fromDoc at h
  cases h1 : parseReq Value.asStr (d.lookup "name") <;> rw [h1] at h <;>
  cases h2 : parseReq Value.asNum (d.lookup "price_month") <;> rw [h2] at h <;>
  cases h3 : parseReq Value.asNum (d.lookup "price_year") <;> rw [h3] at h <;>
  cases h4 : parseReq Value.asStrList (d.lookup "features") <;> rw [h4] at h <;>
    first
    | (injection h with h; rw [← h]; simp)
    | simp_all

/-- `out` is `d` seen through schema fields `F`: every key of `out` is a
declared field, and every declared field present in `d` keeps its value. -/
def schemaFiltered (F : List String) (d out : Doc) : Prop :=
  (∀ k ∈ out.keys, k ∈ F) ∧
  (∀ k ∈ F, (d.lookup k).isSome → out.lookup k = d.lookup k)

lemma question_toDoc_schemaFiltered {d : Doc} {q : Question}
    (h : Question.fromDoc (d.restrict Question.model_fields) = some q) :
    schemaFiltered Question.model_fields d (Question.toDoc q) := by
  obtain ⟨h1, h2, h3, h4⟩ := question_fromDoc_fields h
  rw [Doc.lookup_restrict (show "mode" ∈ Question.model_fields by decide)] at h1
  rw [Doc.lookup_restrict (show "text" ∈ Question.model_fields by decide)] at h2
  rw [Doc.lookup_restrict (show "tags" ∈ Question.model_fields by decide)] at h3
  rw [Doc.lookup_restrict (show "locale" ∈ Question.model_fields by decide)] at h4
  constructor
  · intro k hk
    simpa [Question.toDoc, Doc.keys, Question.model_fields] using hk
  · intro k hkF hsome
    obtain ⟨v, hv⟩ := Option.isSome_iff_exists.mp hsome
    simp only [Question.model_fields, List.mem_cons, List.not_mem_nil,
      or_false] at hkF
    rcases hkF with rfl | rfl | rfl | rfl
    · rw [hv] at h1 ⊢
      have hv' : v = Value.str q.mode := Value.asStr_eq (parseReq_some.mp h1)
      rw [show (Question.toDoc q).lookup "mode" = some (Value.str q.mode) from rfl, hv']
    · rw [hv] at h2 ⊢
      have hv' : v = Value.str q.text := Value.asStr_eq (parseReq_some.mp h2)
      rw [show (Question.toDoc q).lookup "text" = some (Value.str q.text) from rfl, hv']
    · rw [hv] at h3 ⊢
      have hv' : serializeOpt Value.strlist q.tags = v :=
        serializeOpt_parseOpt (fun _ _ hx => Value.asStrList_eq hx) h3
      rw [show (Question.toDoc q).lookup "tags"
            = some (serializeOpt Value.strlist q.tags) from rfl, hv']
    · rw [hv] at h4 ⊢
      have hv' : v = Value.str q.locale := Value.asStr_eq (parseDefault_some.mp h4)
      rw [show (Question.toDoc q).lookup "locale" = some (Value.str q.locale) from rfl, hv']

lemma mode_toDoc_schemaFiltered {d : Doc} {m : Mode}
    (h : Mode.fromDoc (d.restrict Mode.model_fields) = some m) :
    schemaFiltered Mode.model_fields d (Mode.toDoc m) := by
  obtain ⟨h1, h2, h3, h4⟩ := mode_fromDoc_fields h
  rw [Doc.lookup_restrict (show "key" ∈ Mode.model_fields by decide)] at h1
  rw [Doc.lookup_restrict (show "title" ∈ Mode.model_fields by decide)] at h2
  rw [Doc.lookup_restrict (show "description" ∈ Mode.model_fields by decide)] at h3
  rw [Doc.lookup_restrict (show "color" ∈ Mode.model_fields by decide)] at h4
  constructor
  · intro k hk
    simpa [Mode.toDoc, Doc.keys, Mode.model_fields] using hk
  · intro k hkF hsome
    obtain ⟨v, hv⟩ := Option.isSome_iff_exists.mp hsome
    simp only [Mode.model_fields, List.mem_cons, List.not_mem_nil, or_false] at hkF
    rcases hkF with rfl | rfl | rfl | rfl
    · rw [hv] at h1 ⊢
      have hv' : v = Value.str m.key := Value.asStr_eq (parseReq_some.mp h1)
      rw [show (Mode.toDoc m).lookup "key" = some (Value.str m.key) from rfl, hv']
    · rw [hv] at h2 ⊢
      have hv' : v = Value.str m.title := Value.asStr_eq (parseReq_some.mp h2)
      rw [show (Mode.toDoc m).lookup "title" = some (Value.str m.title) from rfl, hv']
    · rw [hv] at h3 ⊢
      have hv' : v = Value.str m.description := Value.asStr_eq (parseReq_some.mp h3)
      rw [show (Mode.toDoc m).lookup "description"
            = some (Value.str m.description) from rfl, hv']
    · rw [hv] at h4 ⊢
      have hv' : v = Value.str m.color := Value.asStr_eq (parseReq_some.mp h4)
      rw [show (Mode.toDoc m).lookup "color" = some (Value.str m.color) from rfl, hv']

lemma blogPost_toDoc_schemaFiltered {now : Nat} {d : Doc} {b : BlogPost}
    (h : BlogPost.fromDoc now (d.restrict BlogPost.model_fields) = some b) :
    schemaFiltered BlogPost.model_fields d (BlogPost.toDoc b) := by
  obtain ⟨h1, h2, h3, h4, h5, h6, h7⟩ := blogPost_fromDoc_fields h
  rw [Doc.lookup_restrict (show "title" ∈ BlogPost.model_fields by decide)] at h1
  rw [Doc.lookup_restrict (show "slug" ∈ BlogPost.model_fields by decide)] at h2
  rw [Doc.lookup_restrict (show "excerpt" ∈ BlogPost.model_fields by decide)] at h3
  rw [Doc.lookup_restrict (show "content" ∈ BlogPost.model_fields by decide)] at h4
  rw [Doc.lookup_restrict (show "image" ∈ BlogPost.model_fields by decide)] at h5
  rw [Doc.lookup_restrict (show "author" ∈ BlogPost.model_fields by decide)] at h6
  rw [Doc.lookup_restrict (show "published_at" ∈ BlogPost.model_fields by decide)] at h7
  constructor
  · intro k hk
    simpa [BlogPost.toDoc, Doc.keys, BlogPost.model_fields] using hk
  · intro k hkF hsome
    obtain ⟨v, hv⟩ := Option.isSome_iff_exists.mp hsome
    simp only [BlogPost.model_fields, List.mem_cons, List.not_mem_nil, or_false] at hkF
    rcases hkF with rfl | rfl | rfl | rfl | rfl | rfl | rfl
    · rw [hv] at h1 ⊢
      have hv' : v = Value.str b.title := Value.asStr_eq (parseReq_some.mp h1)
      rw [show (BlogPost.toDoc b).lookup "title" = some (Value.str b.title) from rfl, hv']
    · rw [hv] at h2 ⊢
      have hv' : v = Value.str b.slug := Value.asStr_eq (parseReq_some.mp h2)
      rw [show (BlogPost.toDoc b).lookup "slug" = some (Value.str b.slug) from rfl, hv']
    · rw [hv] at h3 ⊢
      have hv' : v = Value.str b.excerpt := Value.asStr_eq (parseReq_some.mp h3)
      rw [show (BlogPost.toDoc b).lookup "excerpt" = some (Value.str b.excerpt) from rfl, hv']
    · rw [hv] at h4 ⊢
      have hv' : v = Value.str b.content := Value.asStr_eq (parseReq_some.mp h4)
      rw [show (BlogPost.toDoc b).lookup "content" = some (Value.str b.content) from rfl, hv']
    · rw [hv] at h5 ⊢
      have hv' : serializeOpt Value.str b.image = v :=
        serializeOpt_parseOpt (fun _ _ hx => Value.asStr_eq hx) h5
      rw [show (BlogPost.toDoc b).lookup "image"
            = some (serializeOpt Value.str b.image) from rfl, hv']
    · rw [hv] at h6 ⊢
      have hv' : v = Value.str b.author := Value.asStr_eq (parseDefault_some.mp h6)
      rw [show (BlogPost.toDoc b).lookup "author" = some (Value.str b.author) from rfl, hv']
    · rw [hv] at h7 ⊢
      have hv' : v = Value.time b.published_at :=
        Value.asTime_eq (parseDefault_some.mp h7)
      rw [show (BlogPost.toDoc b).lookup "published_at"
            = some (Value.time b.published_at) from rfl, hv']

lemma pricingPlan_toDoc_schemaFiltered {d : Doc} {p : PricingPlan}
    (h : PricingPlan.fromDoc (d.restrict PricingPlan.model_fields) = some p) :
    schemaFiltered PricingPlan.model_fields d (PricingPlan.toDoc p) := by
  obtain ⟨h1, h2, h3, h4⟩ := pricingPlan_fromDoc_fields h
  rw [Doc.lookup_restrict (show "name" ∈ PricingPlan.model_fields by decide)] at h1
  rw [Doc.lookup_restrict (show "price_month" ∈ PricingPlan.model_fields by decide)] at h2
  rw [Doc.lookup_restrict (show "price_year" ∈ PricingPlan.model_fields by decide)] at h3
  rw [Doc.lookup_restrict (show "features" ∈ PricingPlan.model_fields by decide)] at h4
  constructor
  · intro k hk
    simpa [PricingPlan.toDoc, Doc.keys, PricingPlan.model_fields] using hk
  · intro k hkF hsome
    obtain ⟨v, hv⟩ := Option.isSome_iff_exists.mp hsome
    simp only [PricingPlan.model_fields, List.mem_cons, List.not_mem_nil,
      or_false] at hkF
    rcases hkF with rfl | rfl | rfl | rfl
    · rw [hv] at h1 ⊢
      have hv' : v = Value.str p.name := Value.asStr_eq (parseReq_some.mp h1)
      rw [show (PricingPlan.toDoc p).lookup "name" = some (Value.str p.name) from rfl, hv']
    · rw [hv] at h2 ⊢
      have hv' : v = Value.num p.price_month := Value.asNum_eq (parseReq_some.mp h2)
      rw [show (PricingPlan.toDoc p).lookup "price_month"
            = some (Value.num p.price_month) from rfl, hv']
    · rw [hv] at h3 ⊢
      have hv' : v = Value.num p.price_year := Value.asNum_eq (parseReq_some.mp h3)
      rw [show (PricingPlan.toDoc p).lookup "price_year"
            = some (Value.num p.price_year) from rfl, hv']
    · rw [hv] at h4 ⊢
      have hv' : v = Value.strlist p.features := Value.asStrList_eq (parseReq_some.mp h4)
      rw [show (PricingPlan.toDoc p).lookup "features"
            = some (Value.strlist p.features) from rfl, hv']

/-! ## Claims -/

/-- C1: `POST /questions` with a `mode` outside {child, arts, creative,
technology} returns HTTP 400, and the store state is unchanged by the failed
request (the 400 is raised before any store access). -/
theorem C1_invalid_mode_400_no_write (db : Option Store) (p : NewQuestion)
    (h : p.mode ∉ validModes) : create_question db p = (400, db, none) := by
  simp [create_question, h]

theorem C1_invalid_mode_400_no_write_witness :
    (⟨"history", "What?", none, "en-KE"⟩ : NewQuestion).mode ∉ validModes ∧
    create_question (some []) ⟨"history", "What?", none, "en-KE"⟩
      = (400, some [], none) :=
  ⟨by decide, C1_invalid_mode_400_no_write (some []) _ (by decide)⟩

/-- C10: on `GET /questions` and `GET /answers`, `mode=""` behaves exactly
like omitting the parameter (Python truthiness): the built filter is empty,
and an empty filter matches every document, so documents whose `mode` is the
empty string cannot be selected for. -/
theorem C10_empty_mode_like_omitted (db : Option Store) (n : Nat) :
    list_questions db (some "") n = list_questions db none n ∧
    list_answers db (some "") n = list_answers db none n ∧
    modeFilter (some "") = [] ∧
    ∀ d : Doc, matchesFilter (modeFilter (some "")) d = true := by
  exact ⟨rfl, rfl, rfl, fun d => rfl⟩

/-- C6: `GET /test` is total over every store situation (no connection,
listing succeeds, listing raises); with no store connection it reports
"Not Connected" with an empty `collections`; when listing succeeds at most
10 collection names are returned. -/
theorem C6_test_total_unavailable_capped (s : DbState) (u n : Bool) :
    (test_database DbState.noDb u n).connection_status = "Not Connected" ∧
    (test_database DbState.noDb u n).collections = [] ∧
    (test_database DbState.noDb u n).database = "⚠️  Available but not initialized" ∧
    (test_database s u n).collections.length ≤ 10 := by
  refine ⟨rfl, rfl, rfl, ?_⟩
  cases s with
  | noDb => simp [test_database]
  | ok nm cols => simp [test_database, List.length_take]
  | listErr nm e => simp [test_database]

/-- C3: when the store returns no documents for the respective collection,
`GET /modes` yields exactly the four fixed default modes and `GET /pricing`
exactly Starter (0/0), Creator (4.99/49.0), Team (14.99/149.0), and each
handler leaves the store state unchanged (no write). -/
theorem C3_empty_store_defaults_no_write (db : Option Store)
    (hm : get_documents db "mode" [] 10 = [])
    (hp : get_documents db "pricingplan" [] 10 = []) :
    get_modes db = (db, some
      [⟨"child", "Child", "Playful prompts for kids to imagine better worlds.", "#FDBA74"⟩,
       ⟨"arts", "Arts & Culture", "Explore culture, identity and expression.", "#FDE68A"⟩,
       ⟨"creative", "Creative", "Open-ended ideation and storytelling.", "#86EFAC"⟩,
       ⟨"technology", "Technology", "Invent systems and tools for the future.", "#93C5FD"⟩]) ∧
    get_pricing db = (db, some
      [⟨"Starter", 0, 0, ["Community play", "Basic prompts", "Public chat"]⟩,
       ⟨"Creator", 4.99, 49.0, ["All modes", "Saved worlds", "Custom decks"]⟩,
       ⟨"Team", 14.99, 149.0, ["Facilitator tools", "Scoreboards", "Workshop mode"]⟩]) := by
  constructor
  · simp [get_modes, hm, defaultModes]
  · simp [get_pricing, hp, defaultPlans]

theorem C3_empty_store_defaults_no_write_witness :
    get_modes none = (none, some
      [⟨"child", "Child", "Playful prompts for kids to imagine better worlds.", "#FDBA74"⟩,
       ⟨"arts", "Arts & Culture", "Explore culture, identity and expression.", "#FDE68A"⟩,
       ⟨"creative", "Creative", "Open-ended ideation and storytelling.", "#86EFAC"⟩,
       ⟨"technology", "Technology", "Invent systems and tools for the future.", "#93C5FD"⟩]) ∧
    get_pricing none = (none, some
      [⟨"Starter", 0, 0, ["Community play", "Basic prompts", "Public chat"]⟩,
       ⟨"Creator", 4.99, 49.0, ["All modes", "Saved worlds", "Custom decks"]⟩,
       ⟨"Team", 14.99, 149.0, ["Facilitator tools", "Scoreboards", "Workshop mode"]⟩]) :=
  C3_empty_store_defaults_no_write none rfl rfl

/-- C9: `GET /modes` and `GET /pricing` query the store with the fixed limit
10, so for every store state each endpoint returns at most 10 documents;
neither handler takes a query parameter, so nothing can raise the cap. -/
theorem C9_modes_pricing_cap_10 (db : Option Store) (ms : List Mode)
    (ps : List PricingPlan) :
    ((get_modes db).2 = some ms → ms.length ≤ 10) ∧
    ((get_pricing db).2 = some ps → ps.length ≤ 10) := by
  constructor
  · intro h
    unfold get_modes at h
    by_cases he : (get_documents db "mode" [] 10).isEmpty
    · rw [if_pos he] at h
      simp at h
      rw [← h]
      decide
    · rw [if_neg he] at h
      simp only at h
      have h1 := mapOrErr_length h
      have h2 := length_get_documents_le db "mode" [] 10
      omega
  · intro h
    unfold get_pricing at h
    by_cases he : (get_documents db "pricingplan" [] 10).isEmpty
    · rw [if_pos he] at h
      simp at h
      rw [← h]
      decide
    · rw [if_neg he] at h
      simp only at h
      have h1 := mapOrErr_length h
      have h2 := length_get_documents_le db "pricingplan" [] 10
      omega

theorem C9_modes_pricing_cap_10_witness :
    (List.replicate 10 (⟨"child", "Child", "d", "#F"⟩ : Mode)).length ≤ 10 ∧
    defaultPlans.length ≤ 10 :=
  ⟨(C9_modes_pricing_cap_10
      (some (List.replicate 11 ("mode", Mode.toDoc ⟨"child", "Child", "d", "#F"⟩)))
      (List.replicate 10 ⟨"child", "Child", "d", "#F"⟩) defaultPlans).1 (by rfl),
   (C9_modes_pricing_cap_10
      (some (List.replicate 11 ("mode", Mode.toDoc ⟨"child", "Child", "d", "#F"⟩)))
      (List.replicate 10 ⟨"child", "Child", "d", "#F"⟩) defaultPlans).2 (by rfl)⟩

/-- C4: `GET /questions?mode=m&limit=n` with non-empty `m` returns at most
`n` documents, and every returned question has mode exactly `m` (the handler
builds an exact-match filter on `mode` and passes `limit` to the store). -/
theorem C4_questions_filtered_and_limited (db : Option Store) (m : String)
    (n : Nat) (qs : List Question) (hm : m ≠ "")
    (h : list_questions db (some m) n = some qs) :
    qs.length ≤ n ∧ ∀ q ∈ qs, q.mode = m := by
  unfold list_questions at h
  have hf : modeFilter (some m) = [("mode", Value.str m)] := by
    simp [modeFilter, hm]
  rw [hf] at h
  constructor
  · have h1 := mapOrErr_length h
    have h2 := length_get_documents_le db "question" [("mode", Value.str m)] n
    omega
  · intro q hq
    rcases mapOrErr_mem h q hq with ⟨d, hd, hparse⟩
    have hlook : d.lookup "mode" = some (Value.str m) :=
      matchesFilter_single (matchesFilter_of_mem_get_documents hd)
    have h1 := (question_fromDoc_fields hparse).1
    rw [Doc.lookup_restrict (show "mode" ∈ Question.model_fields by decide),
      hlook] at h1
    have h2 : m = q.mode := by
      simpa [parseReq, Value.asStr] using h1
    exact h2.symm

theorem C4_questions_filtered_and_limited_witness :
    ("arts" : String) ≠ "" ∧
    (([⟨"arts", "T", none, "en-KE"⟩] : List Question).length ≤ 2 ∧
      ∀ q ∈ ([⟨"arts", "T", none, "en-KE"⟩] : List Question), q.mode = "arts") :=
  ⟨by decide,
   C4_questions_filtered_and_limited
     (some [("question", [("mode", Value.str "arts"), ("text", Value.str "T")]),
            ("question", [("mode", Value.str "child"), ("text", Value.str "U")])])
     "arts" 2 [⟨"arts", "T", none, "en-KE"⟩] (by decide) (by rfl)⟩

/-- C7: a `BlogPost` built with `published_at` omitted gets the construction
timestamp `now` (never null, never a fixed constant), and `POST /blog`
persists exactly that timestamp in the stored document. -/
theorem C7_published_at_defaults_to_creation_time (now : Nat) (d : Doc)
    (bp : BlogPost) (st : Store)
    (habsent : d.lookup "published_at" = none)
    (h : BlogPost.fromDoc now d = some bp) :
    bp.published_at = now ∧
    (create_blog st bp).1 = st ++ [("blogpost", BlogPost.toDoc bp)] ∧
    (BlogPost.toDoc bp).lookup "published_at" = some (Value.time now) := by
  have h7 := (blogPost_fromDoc_fields h).2.2.2.2.2.2
  rw [habsent] at h7
  have hbn : bp.published_at = now := by
    have := h7
    simp [parseDefault] at this
    exact this.symm
  refine ⟨hbn, rfl, ?_⟩
  rw [show (BlogPost.toDoc bp).lookup "published_at"
        = some (Value.time bp.published_at) from rfl, hbn]

theorem C7_published_at_defaults_to_creation_time_witness :
    ([("title", Value.str "A"), ("slug", Value.str "a"),
      ("excerpt", Value.str "e"), ("content", Value.str "c")] : Doc).lookup
        "published_at" = none ∧
    ((⟨"A", "a", "e", "c", none, "IMAGINE Team", 42⟩ : BlogPost).published_at = 42 ∧
      (create_blog [] ⟨"A", "a", "e", "c", none, "IMAGINE Team", 42⟩).1
        = [] ++ [("blogpost", BlogPost.toDoc ⟨"A", "a", "e", "c", none, "IMAGINE Team", 42⟩)] ∧
      (BlogPost.toDoc ⟨"A", "a", "e", "c", none, "IMAGINE Team", 42⟩).lookup
        "published_at" = some (Value.time 42)) :=
  ⟨by rfl,
   C7_published_at_defaults_to_creation_time 42
     [("title", Value.str "A"), ("slug", Value.str "a"),
      ("excerpt", Value.str "e"), ("content", Value.str "c")]
     ⟨"A", "a", "e", "c", none, "IMAGINE Team", 42⟩ [] (by rfl) (by rfl)⟩

/-- C8: persisting a valid `Mode` and reading back via `GET /modes` yields
exactly the declared fields unchanged; a stored extra field (such as an
internally generated identifier) is excluded from the read. -/
theorem C8_mode_post_get_roundtrip (m : Mode) (k : String) (v : Value)
    (hk : k ∉ Mode.model_fields) :
    (get_modes (some (create_document [] "mode" (Mode.toDoc m)).1)).2 = some [m] ∧
    (get_modes (some [("mode", Mode.toDoc m ++ [(k, v)])])).2 = some [m] := by
  have hparse : Mode.fromDoc ((Mode.toDoc m).restrict Mode.model_fields) = some m := rfl
  constructor
  · have hdocs : get_documents (some (create_document [] "mode" (Mode.toDoc m)).1)
        "mode" [] 10 = [Mode.toDoc m] := rfl
    unfold get_modes
    rw [hdocs]
    simp [mapOrErr, hparse]
  · have hdrop : (Mode.toDoc m ++ [(k, v)]).restrict Mode.model_fields
        = (Mode.toDoc m).restrict Mode.model_fields := by
      unfold Doc.restrict
      rw [List.filter_append]
      have : List.filter (fun kv => decide (kv.1 ∈ Mode.model_fields)) [(k, v)] = [] := by
        simp [List.filter_cons, hk]
      rw [this, List.append_nil]
    have hdocs : get_documents (some [("mode", Mode.toDoc m ++ [(k, v)])])
        "mode" [] 10 = [Mode.toDoc m ++ [(k, v)]] := rfl
    unfold get_modes
    rw [hdocs]
    simp [mapOrErr, hdrop, hparse]

theorem C8_mode_post_get_roundtrip_witness :
    ("_id" : String) ∉ Mode.model_fields ∧
    ((get_modes (some (create_document [] "mode"
        (Mode.toDoc ⟨"child", "Child", "D", "#FDBA74"⟩)).1)).2
      = some [⟨"child", "Child", "D", "#FDBA74"⟩] ∧
     (get_modes (some [("mode",
        Mode.toDoc ⟨"child", "Child", "D", "#FDBA74"⟩ ++ [("_id", Value.str "x")])])).2
      = some [⟨"child", "Child", "D", "#FDBA74"⟩]) :=
  ⟨by decide,
   C8_mode_post_get_roundtrip ⟨"child", "Child", "D", "#FDBA74"⟩ "_id"
     (Value.str "x") (by decide)⟩

/-- C2: `POST /seed` is idempotent: from a store with zero `mode` and zero
`pricingplan` documents, one call leaves exactly 4 mode and 3 pricingplan
documents, and a second call returns the store unchanged (inserts nothing
into already-seeded collections). -/
theorem C2_seed_idempotent (st : Store)
    (hm : count_documents st "mode" = 0)
    (hp : count_documents st "pricingplan" = 0) :
    ∃ st1, seed_content (some st) = some st1 ∧
      count_documents st1 "mode" = 4 ∧
      count_documents st1 "pricingplan" = 3 ∧
      seed_content (some st1) = some st1 := by
  set st1 := st ++ defaultModes.map (fun m => ("mode", Mode.toDoc m))
      ++ defaultPlans.map (fun p => ("pricingplan", PricingPlan.toDoc p)) with hst1
  have hM : count_documents st1 "mode" = 4 := by
    rw [hst1, count_documents_append, count_documents_append, hm,
      count_documents_map_self, count_documents_map_other (by decide)]
    simp [defaultModes]
  have hP : count_documents st1 "pricingplan" = 3 := by
    rw [hst1, count_documents_append, count_documents_append, hp,
      count_documents_map_other (by decide), count_documents_map_self]
    simp [defaultPlans]
  have hmid : count_documents
      (st ++ defaultModes.map (fun m => ("mode", Mode.toDoc m))) "pricingplan" = 0 := by
    rw [count_documents_append, hp, count_documents_map_other (by decide)]
  have hM' : ¬ count_documents st1 "mode" = 0 := by rw [hM]; decide
  have hP' : ¬ count_documents st1 "pricingplan" = 0 := by rw [hP]; decide
  refine ⟨st1, ?_, hM, hP, ?_⟩
  · simp only [seed_content]
    rw [if_pos hm, foldl_create_document, if_pos hmid, foldl_create_document, hst1]
  · simp only [seed_content]
    rw [if_neg hM', if_neg hP']

theorem C2_seed_idempotent_witness :
    count_documents [] "mode" = 0 ∧ count_documents [] "pricingplan" = 0 ∧
    ∃ st1, seed_content (some []) = some st1 ∧
      count_documents st1 "mode" = 4 ∧
      count_documents st1 "pricingplan" = 3 ∧
      seed_content (some st1) = some st1 :=
  ⟨rfl, rfl, C2_seed_idempotent [] rfl rfl⟩

/-- C5: read paths through a schema drop every undeclared stored field
(`/questions`, `/modes`, `/blog`, `/pricing`), while the raw read paths
(`/answers`, `/chat`) return the stored documents unchanged, extra fields
included. -/
theorem C5_schema_filtered_vs_raw_reads (d : Doc) (now : Nat) :
    (∀ q : Question, list_questions (some [("question", d)]) none 50 = some [q] →
        schemaFiltered Question.model_fields d (Question.toDoc q)) ∧
    (∀ mo : Mode, (get_modes (some [("mode", d)])).2 = some [mo] →
        schemaFiltered Mode.model_fields d (Mode.toDoc mo)) ∧
    (∀ b : BlogPost, list_blog (some [("blogpost", d)]) now = some [b] →
        schemaFiltered BlogPost.model_fields d (BlogPost.toDoc b)) ∧
    (∀ p : PricingPlan, (get_pricing (some [("pricingplan", d)])).2 = some [p] →
        schemaFiltered PricingPlan.model_fields d (PricingPlan.toDoc p)) ∧
    list_answers (some [("answer", d)]) none 50 = [d] ∧
    get_chat (some [("chatmessage", d)]) 30 = [d] := by
  refine ⟨?_, ?_, ?_, ?_, rfl, rfl⟩
  · intro q h
    unfold list_questions at h
    rw [show get_documents (some [("question", d)]) "question" (modeFilter none) 50
          = [d] from rfl] at h
    rcases mapOrErr_cons_eq_some.1 h with ⟨b, bs, hb, hbs, heq⟩
    rw [mapOrErr] at hbs
    injection hbs with hbs
    subst hbs
    injection heq with h1 h2
    subst h1
    exact question_toDoc_schemaFiltered hb
  · intro mo h
    unfold get_modes at h
    rw [show get_documents (some [("mode", d)]) "mode" [] 10 = [d] from rfl,
      if_neg (by simp)] at h
    have h' : mapOrErr (fun d => Mode.fromDoc (d.restrict Mode.model_fields)) [d]
        = some [mo] := h
    rcases mapOrErr_cons_eq_some.1 h' with ⟨b, bs, hb, hbs, heq⟩
    rw [mapOrErr] at hbs
    injection hbs with hbs
    subst hbs
    injection heq with h1 h2
    subst h1
    exact mode_toDoc_schemaFiltered hb
  · intro b h
    unfold list_blog at h
    rw [show get_documents (some [("blogpost", d)]) "blogpost" [] 20
          = [d] from rfl] at h
    rcases mapOrErr_cons_eq_some.1 h with ⟨b0, bs, hb, hbs, heq⟩
    rw [mapOrErr] at hbs
    injection hbs with hbs
    subst hbs
    injection heq with h1 h2
    subst h1
    exact blogPost_toDoc_schemaFiltered hb
  · intro p h
    unfold get_pricing at h
    rw [show get_documents (some [("pricingplan", d)]) "pricingplan" [] 10
          = [d] from rfl, if_neg (by simp)] at h
    have h' : mapOrErr
        (fun d => PricingPlan.fromDoc (d.restrict PricingPlan.model_fields)) [d]
        = some [p] := h
    rcases mapOrErr_cons_eq_some.1 h' with ⟨b, bs, hb, hbs, heq⟩
    rw [mapOrErr] at hbs
    injection hbs with hbs
    subst hbs
    injection heq with h1 h2
    subst h1
    exact pricingPlan_toDoc_schemaFiltered hb

theorem C5_schema_filtered_vs_raw_reads_witness :
    schemaFiltered Question.model_fields universalDoc
      (Question.toDoc ⟨"child", "Why?", some ["a"], "en-KE"⟩) ∧
    schemaFiltered Mode.model_fields universalDoc
      (Mode.toDoc ⟨"child", "T", "D", "#FFF"⟩) ∧
    schemaFiltered BlogPost.model_fields universalDoc
      (BlogPost.toDoc ⟨"T", "t", "E", "C", none, "A", 7⟩) ∧
    schemaFiltered PricingPlan.model_fields universalDoc
      (PricingPlan.toDoc ⟨"Starter", 0, 0, ["f"]⟩) ∧
    list_answers (some [("answer", universalDoc)]) none 50 = [universalDoc] ∧
    get_chat (some [("chatmessage", universalDoc)]) 30 = [universalDoc] := by
  obtain ⟨hq, hmo, hb, hp, ha, hc⟩ := C5_schema_filtered_vs_raw_reads universalDoc 7
  exact ⟨hq _ (by rfl), hmo _ (by rfl), hb _ (by rfl), hp _ (by rfl), ha, hc⟩
